import Mathlib

/-!
Verification of the slide-composition core of `convert_html_to_images.py`.

The only non-trivial logic of the repository is `compose_slide`
(src/convert_html_to_images.py, lines 15-47).  We embed it shallowly:

* A PIL `Image` is a `Bitmap`: a width, a height and a pixel function.
* Python's real arithmetic (`target_w / image.width`, `image.width * scale`,
  `max_x * focus_x`) is modelled exactly by `ℚ`; Python `int()` truncation
  toward zero is `pyInt`.
* `Image.resize` is modelled by `Bitmap.resize`, parametric in the pixel
  content produced by the LANCZOS filter (a `resamplePix` function argument):
  every claim under verification depends only on the geometry of the resample,
  never on the filtered pixel values.  Pillow's resize raises
  `ValueError: height and width must be > 0` when a requested dimension is
  zero; we model that failure (and hence `compose_slide`'s failure) as `none`.
* `Image.crop` pads out-of-bounds areas with black, and always returns a
  bitmap of size `(right - left, bottom - top)`; `Image.paste` clips the
  pasted image to the canvas.  Both are modelled pixel-exactly.
-/

/-- An RGB pixel value, as in PIL mode "RGB". -/
abbrev Color : Type := ℕ × ℕ × ℕ

/-- A PIL `Image`: width, height, and a pixel lookup defined on
`[0, width) × [0, height)` (values outside are irrelevant junk). -/
structure Bitmap where
  width : ℕ
  height : ℕ
  pix : ℕ → ℕ → Color

/-- Focus clamping `min(max(x, 0.0), 1.0)` on lines 24-25. -/
def clamp01 (x : ℚ) : ℚ := min (max x 0) 1

/-- Python `int()` on a real number: truncation toward zero. -/
def pyInt (q : ℚ) : ℤ := if 0 ≤ q then ⌊q⌋ else -⌊-q⌋

/-- Model of `Image.new("RGB", slide_size, color=background_color)` (line 44). -/
def imageNew (size : ℕ × ℕ) (color : Color) : Bitmap :=
  ⟨size.1, size.2, fun _ _ => color⟩

/-- Model of `image.resize(new_size, Image.LANCZOS)` (line 32), parametric in the
pixel content `resamplePix image new_size` produced by the LANCZOS filter.
Pillow rejects a zero target dimension (`ValueError`), modelled as `none`;
otherwise the result has exactly the requested dimensions. -/
def Bitmap.resize (resamplePix : Bitmap → ℕ × ℕ → ℕ → ℕ → Color)
    (image : Bitmap) (new_size : ℕ × ℕ) : Option Bitmap :=
  if new_size.1 = 0 ∨ new_size.2 = 0 then none
  else some ⟨new_size.1, new_size.2, resamplePix image new_size⟩

/-- Model of `resized.crop((left, top, right, bottom))` (line 41).  PIL returns an
image of size `(right - left, bottom - top)`; pixels whose source coordinate
falls outside the source image are filled with black `(0,0,0)`. -/
def Bitmap.crop (bmp : Bitmap) (left top right bottom : ℤ) : Bitmap :=
  ⟨(right - left).toNat, (bottom - top).toNat, fun x y =>
    if 0 ≤ left + x ∧ left + x < (bmp.width : ℤ) ∧
       0 ≤ top + y ∧ top + y < (bmp.height : ℤ) then
      bmp.pix (left + x).toNat (top + y).toNat
    else (0, 0, 0)⟩

/-- Model of `canvas.paste(resized, offset)` (line 46).  The pasted image is clipped
to the canvas; the canvas keeps its dimensions. -/
def Bitmap.paste (canvas img : Bitmap) (offset : ℤ × ℤ) : Bitmap :=
  ⟨canvas.width, canvas.height, fun x y =>
    if offset.1 ≤ (x : ℤ) ∧ (x : ℤ) < offset.1 + img.width ∧
       offset.2 ≤ (y : ℤ) ∧ (y : ℤ) < offset.2 + img.height then
      img.pix ((x : ℤ) - offset.1).toNat ((y : ℤ) - offset.2).toNat
    else canvas.pix x y⟩

/-- Lines 26-29: `scale = max(target_w / image.width, target_h / image.height)`
when `mode == "fill"`, else the `min` of the two ratios. -/
def scale_of (image : Bitmap) (slide_size : ℕ × ℕ) (mode : String) : ℚ :=
  if mode = "fill" then
    max ((slide_size.1 : ℚ) / image.width) ((slide_size.2 : ℚ) / image.height)
  else
    min ((slide_size.1 : ℚ) / image.width) ((slide_size.2 : ℚ) / image.height)

/-- Line 31: `new_size = (int(image.width * scale), int(image.height * scale))`. -/
def new_size_of (image : Bitmap) (slide_size : ℕ × ℕ) (mode : String) : ℕ × ℕ :=
  ((pyInt ((image.width : ℚ) * scale_of image slide_size mode)).toNat,
   (pyInt ((image.height : ℚ) * scale_of image slide_size mode)).toNat)

/-- Line 35: `max_x = max(new_size[0] - target_w, 0)` in the fill branch. -/
def overflow_x (image : Bitmap) (slide_size : ℕ × ℕ) : ℤ :=
  max (((new_size_of image slide_size "fill").1 : ℤ) - slide_size.1) 0

/-- Line 36: `max_y = max(new_size[1] - target_h, 0)` in the fill branch. -/
def overflow_y (image : Bitmap) (slide_size : ℕ × ℕ) : ℤ :=
  max (((new_size_of image slide_size "fill").2 : ℤ) - slide_size.2) 0

/-- Line 37: `left = int(max_x * focus_x)` (`fx` is the already-clamped focus). -/
def fill_left (image : Bitmap) (slide_size : ℕ × ℕ) (fx : ℚ) : ℤ :=
  pyInt ((overflow_x image slide_size : ℚ) * fx)

/-- Line 38: `top = int(max_y * focus_y)` (`fy` is the already-clamped focus). -/
def fill_top (image : Bitmap) (slide_size : ℕ × ℕ) (fy : ℚ) : ℤ :=
  pyInt ((overflow_y image slide_size : ℚ) * fy)

/-- Line 45: `offset = ((target_w - new_size[0]) // 2, (target_h - new_size[1]) // 2)`.
Python `//` on integers is floor division, `Int.fdiv`. -/
def fit_offset (slide_size new_size : ℕ × ℕ) : ℤ × ℤ :=
  (Int.fdiv ((slide_size.1 : ℤ) - new_size.1) 2,
   Int.fdiv ((slide_size.2 : ℤ) - new_size.2) 2)

/-- The function `compose_slide` (src/convert_html_to_images.py lines 15-47), parametric in
the LANCZOS pixel content.  Returns `none` exactly when `image.resize` fails
(a scaled dimension truncates to zero). -/
def compose_slide (resamplePix : Bitmap → ℕ × ℕ → ℕ → ℕ → Color)
    (image : Bitmap) (slide_size : ℕ × ℕ) (mode : String)
    (focus_x focus_y : ℚ) (background_color : Color) : Option Bitmap :=
  let fx := clamp01 focus_x
  let fy := clamp01 focus_y
  let new_size := new_size_of image slide_size mode
  (Bitmap.resize resamplePix image new_size).map fun resized =>
    if mode = "fill" then
      Bitmap.crop resized
        (fill_left image slide_size fx) (fill_top image slide_size fy)
        (fill_left image slide_size fx + slide_size.1)
        (fill_top image slide_size fy + slide_size.2)
    else
      Bitmap.paste (imageNew slide_size background_color) resized
        (fit_offset slide_size new_size)

/-- A constant resampling filter, used to instantiate the parametric
LANCZOS pixel content on concrete examples. -/
def constPix : Bitmap → ℕ × ℕ → ℕ → ℕ → Color := fun _ _ _ _ => (9, 9, 9)

/-- A concrete 2×1 source bitmap (target `(4, 2)` scales it by exactly 2). -/
def testImage : Bitmap := ⟨2, 1, fun _ _ => (0, 0, 0)⟩

/-- A concrete 1×1000 source bitmap whose fit-scale to a 100×100 target
truncates the scaled width to zero. -/
def degenImage : Bitmap := ⟨1, 1000, fun _ _ => (0, 0, 0)⟩

/-- The 4000×2000 source bitmap of the spec's fit-mode scenario. -/
def srcScenario : Bitmap := ⟨4000, 2000, fun _ _ => (0, 0, 0)⟩

/-! ### Basic lemmas about the embedded operations -/

theorem clamp01_nonneg (x : ℚ) : 0 ≤ clamp01 x :=
  le_min (le_max_right x 0) zero_le_one

theorem clamp01_le_one (x : ℚ) : clamp01 x ≤ 1 :=
  min_le_right _ _

theorem clamp01_of_mem {x : ℚ} (h0 : 0 ≤ x) (h1 : x ≤ 1) : clamp01 x = x := by
  rw [clamp01, max_eq_left h0, min_eq_left h1]

theorem clamp01_idem (x : ℚ) : clamp01 (clamp01 x) = clamp01 x :=
  clamp01_of_mem (clamp01_nonneg x) (clamp01_le_one x)

theorem pyInt_of_nonneg {q : ℚ} (h : 0 ≤ q) : pyInt q = ⌊q⌋ := if_pos h

theorem pyInt_nonneg {q : ℚ} (h : 0 ≤ q) : 0 ≤ pyInt q := by
  rw [pyInt_of_nonneg h]
  exact Int.floor_nonneg.mpr h

theorem scale_of_nonneg (image : Bitmap) (slide_size : ℕ × ℕ) (mode : String) :
    0 ≤ scale_of image slide_size mode := by
  have h1 : (0 : ℚ) ≤ (slide_size.1 : ℚ) / image.width := by positivity
  have h2 : (0 : ℚ) ≤ (slide_size.2 : ℚ) / image.height := by positivity
  rw [scale_of]
  split
  · exact le_max_of_le_left h1
  · exact le_min h1 h2

theorem new_size_coe_fst (image : Bitmap) (slide_size : ℕ × ℕ) (mode : String) :
    ((new_size_of image slide_size mode).1 : ℤ) =
      ⌊(image.width : ℚ) * scale_of image slide_size mode⌋ := by
  have hq : (0 : ℚ) ≤ (image.width : ℚ) * scale_of image slide_size mode :=
    mul_nonneg (by positivity) (scale_of_nonneg image slide_size mode)
  rw [new_size_of, pyInt_of_nonneg hq]
  exact Int.toNat_of_nonneg (Int.floor_nonneg.mpr hq)

theorem new_size_coe_snd (image : Bitmap) (slide_size : ℕ × ℕ) (mode : String) :
    ((new_size_of image slide_size mode).2 : ℤ) =
      ⌊(image.height : ℚ) * scale_of image slide_size mode⌋ := by
  have hq : (0 : ℚ) ≤ (image.height : ℚ) * scale_of image slide_size mode :=
    mul_nonneg (by positivity) (scale_of_nonneg image slide_size mode)
  rw [new_size_of, pyInt_of_nonneg hq]
  exact Int.toNat_of_nonneg (Int.floor_nonneg.mpr hq)

/-- Unfolding `compose_slide` when `mode == "fill"` and the resize succeeds. -/
theorem compose_eq_fill (resamplePix : Bitmap → ℕ × ℕ → ℕ → ℕ → Color)
    (image : Bitmap) (slide_size : ℕ × ℕ) (fx fy : ℚ) (bg : Color)
    (h1 : (new_size_of image slide_size "fill").1 ≠ 0)
    (h2 : (new_size_of image slide_size "fill").2 ≠ 0) :
    compose_slide resamplePix image slide_size "fill" fx fy bg =
      some (Bitmap.crop
        ⟨(new_size_of image slide_size "fill").1,
         (new_size_of image slide_size "fill").2,
         resamplePix image (new_size_of image slide_size "fill")⟩
        (fill_left image slide_size (clamp01 fx))
        (fill_top image slide_size (clamp01 fy))
        (fill_left image slide_size (clamp01 fx) + slide_size.1)
        (fill_top image slide_size (clamp01 fy) + slide_size.2)) := by
  rw [compose_slide, Bitmap.resize, if_neg (by simp [h1, h2])]
  simp

/-- Unfolding `compose_slide` when `mode != "fill"` and the resize succeeds. -/
theorem compose_eq_fit (resamplePix : Bitmap → ℕ × ℕ → ℕ → ℕ → Color)
    (image : Bitmap) (slide_size : ℕ × ℕ) (mode : String) (fx fy : ℚ) (bg : Color)
    (hmode : mode ≠ "fill")
    (h1 : (new_size_of image slide_size mode).1 ≠ 0)
    (h2 : (new_size_of image slide_size mode).2 ≠ 0) :
    compose_slide resamplePix image slide_size mode fx fy bg =
      some (Bitmap.paste (imageNew slide_size bg)
        ⟨(new_size_of image slide_size mode).1,
         (new_size_of image slide_size mode).2,
         resamplePix image (new_size_of image slide_size mode)⟩
        (fit_offset slide_size (new_size_of image slide_size mode))) := by
  rw [compose_slide, Bitmap.resize, if_neg (by simp [h1, h2])]
  simp [hmode]

theorem crop_width (bmp : Bitmap) (left top : ℤ) (w h : ℕ) :
    (bmp.crop left top (left + w) (top + h)).width = w := by
  simp only [Bitmap.crop]
  omega

theorem crop_height (bmp : Bitmap) (left top : ℤ) (w h : ℕ) :
    (bmp.crop left top (left + w) (top + h)).height = h := by
  simp only [Bitmap.crop]
  omega

/-! ### Arithmetic facts about the scale and the scaled dimensions -/

theorem scale_of_fill (image : Bitmap) (slide_size : ℕ × ℕ) :
    scale_of image slide_size "fill" =
      max ((slide_size.1 : ℚ) / image.width) ((slide_size.2 : ℚ) / image.height) :=
  if_pos rfl

theorem scale_of_ne_fill (image : Bitmap) (slide_size : ℕ × ℕ) {mode : String}
    (hmode : mode ≠ "fill") :
    scale_of image slide_size mode =
      min ((slide_size.1 : ℚ) / image.width) ((slide_size.2 : ℚ) / image.height) :=
  if_neg hmode

theorem new_size_of_ne_fill (image : Bitmap) (slide_size : ℕ × ℕ) {mode : String}
    (hmode : mode ≠ "fill") :
    new_size_of image slide_size mode = new_size_of image slide_size "fit" := by
  rw [new_size_of, new_size_of, scale_of_ne_fill image slide_size hmode,
    scale_of_ne_fill image slide_size (by decide : ("fit" : String) ≠ "fill")]

theorem mul_width_scale_fill_ge (image : Bitmap) (slide_size : ℕ × ℕ)
    (hw : 0 < image.width) :
    (slide_size.1 : ℚ) ≤ (image.width : ℚ) * scale_of image slide_size "fill" := by
  have hw' : (image.width : ℚ) ≠ 0 := by positivity
  calc (slide_size.1 : ℚ)
      = (image.width : ℚ) * ((slide_size.1 : ℚ) / image.width) := by
        rw [← mul_div_assoc, mul_div_cancel_left₀ _ hw']
    _ ≤ (image.width : ℚ) * scale_of image slide_size "fill" := by
        apply mul_le_mul_of_nonneg_left _ (by positivity)
        rw [scale_of_fill]
        exact le_max_left _ _

theorem mul_height_scale_fill_ge (image : Bitmap) (slide_size : ℕ × ℕ)
    (hh : 0 < image.height) :
    (slide_size.2 : ℚ) ≤ (image.height : ℚ) * scale_of image slide_size "fill" := by
  have hh' : (image.height : ℚ) ≠ 0 := by positivity
  calc (slide_size.2 : ℚ)
      = (image.height : ℚ) * ((slide_size.2 : ℚ) / image.height) := by
        rw [← mul_div_assoc, mul_div_cancel_left₀ _ hh']
    _ ≤ (image.height : ℚ) * scale_of image slide_size "fill" := by
        apply mul_le_mul_of_nonneg_left _ (by positivity)
        rw [scale_of_fill]
        exact le_max_right _ _

/-- In fill mode the truncated scaled width still covers the target width. -/
theorem fill_width_ge (image : Bitmap) (slide_size : ℕ × ℕ) (hw : 0 < image.width) :
    slide_size.1 ≤ (new_size_of image slide_size "fill").1 := by
  have h : (slide_size.1 : ℤ) ≤ ((new_size_of image slide_size "fill").1 : ℤ) := by
    rw [new_size_coe_fst]
    exact Int.le_floor.mpr (by exact_mod_cast mul_width_scale_fill_ge image slide_size hw)
  exact_mod_cast h

/-- In fill mode the truncated scaled height still covers the target height. -/
theorem fill_height_ge (image : Bitmap) (slide_size : ℕ × ℕ) (hh : 0 < image.height) :
    slide_size.2 ≤ (new_size_of image slide_size "fill").2 := by
  have h : (slide_size.2 : ℤ) ≤ ((new_size_of image slide_size "fill").2 : ℤ) := by
    rw [new_size_coe_snd]
    exact Int.le_floor.mpr (by exact_mod_cast mul_height_scale_fill_ge image slide_size hh)
  exact_mod_cast h

/-- In fit mode (any mode other than `"fill"`) the scaled width never exceeds
the target width. -/
theorem fit_width_le (image : Bitmap) (slide_size : ℕ × ℕ) {mode : String}
    (hmode : mode ≠ "fill") (hw : 0 < image.width) :
    (new_size_of image slide_size mode).1 ≤ slide_size.1 := by
  have hw' : (image.width : ℚ) ≠ 0 := by positivity
  have hq : (image.width : ℚ) * scale_of image slide_size mode ≤ slide_size.1 := by
    calc (image.width : ℚ) * scale_of image slide_size mode
        ≤ (image.width : ℚ) * ((slide_size.1 : ℚ) / image.width) := by
          apply mul_le_mul_of_nonneg_left _ (by positivity)
          rw [scale_of_ne_fill image slide_size hmode]
          exact min_le_left _ _
      _ = (slide_size.1 : ℚ) := by rw [← mul_div_assoc, mul_div_cancel_left₀ _ hw']
  have h : ((new_size_of image slide_size mode).1 : ℤ) ≤ (slide_size.1 : ℤ) := by
    rw [new_size_coe_fst]
    calc ⌊(image.width : ℚ) * scale_of image slide_size mode⌋
        ≤ ⌊(slide_size.1 : ℚ)⌋ := Int.floor_le_floor hq
      _ = (slide_size.1 : ℤ) := by rw [← Int.cast_natCast, Int.floor_intCast]
  exact_mod_cast h

/-- In fit mode the scaled height never exceeds the target height. -/
theorem fit_height_le (image : Bitmap) (slide_size : ℕ × ℕ) {mode : String}
    (hmode : mode ≠ "fill") (hh : 0 < image.height) :
    (new_size_of image slide_size mode).2 ≤ slide_size.2 := by
  have hh' : (image.height : ℚ) ≠ 0 := by positivity
  have hq : (image.height : ℚ) * scale_of image slide_size mode ≤ slide_size.2 := by
    calc (image.height : ℚ) * scale_of image slide_size mode
        ≤ (image.height : ℚ) * ((slide_size.2 : ℚ) / image.height) := by
          apply mul_le_mul_of_nonneg_left _ (by positivity)
          rw [scale_of_ne_fill image slide_size hmode]
          exact min_le_right _ _
      _ = (slide_size.2 : ℚ) := by rw [← mul_div_assoc, mul_div_cancel_left₀ _ hh']
  have h : ((new_size_of image slide_size mode).2 : ℤ) ≤ (slide_size.2 : ℤ) := by
    rw [new_size_coe_snd]
    calc ⌊(image.height : ℚ) * scale_of image slide_size mode⌋
        ≤ ⌊(slide_size.2 : ℚ)⌋ := Int.floor_le_floor hq
      _ = (slide_size.2 : ℤ) := by rw [← Int.cast_natCast, Int.floor_intCast]
  exact_mod_cast h

/-- In fit mode the constrained axis is scaled to exactly the target length. -/
theorem fit_axis_eq (image : Bitmap) (slide_size : ℕ × ℕ) {mode : String}
    (hmode : mode ≠ "fill") (hw : 0 < image.width) (hh : 0 < image.height) :
    (new_size_of image slide_size mode).1 = slide_size.1 ∨
    (new_size_of image slide_size mode).2 = slide_size.2 := by
  have hw' : (image.width : ℚ) ≠ 0 := by positivity
  have hh' : (image.height : ℚ) ≠ 0 := by positivity
  rcases min_choice ((slide_size.1 : ℚ) / image.width) ((slide_size.2 : ℚ) / image.height)
    with hmin | hmin
  · left
    have hq : (image.width : ℚ) * scale_of image slide_size mode = slide_size.1 := by
      rw [scale_of_ne_fill image slide_size hmode, hmin, ← mul_div_assoc,
        mul_div_cancel_left₀ _ hw']
    have h : ((new_size_of image slide_size mode).1 : ℤ) = (slide_size.1 : ℤ) := by
      rw [new_size_coe_fst, hq, ← Int.cast_natCast, Int.floor_intCast]
    exact_mod_cast h
  · right
    have hq : (image.height : ℚ) * scale_of image slide_size mode = slide_size.2 := by
      rw [scale_of_ne_fill image slide_size hmode, hmin, ← mul_div_assoc,
        mul_div_cancel_left₀ _ hh']
    have h : ((new_size_of image slide_size mode).2 : ℤ) = (slide_size.2 : ℤ) := by
      rw [new_size_coe_snd, hq, ← Int.cast_natCast, Int.floor_intCast]
    exact_mod_cast h

/-! ### Facts about the fill-mode crop offsets -/

theorem overflow_x_nonneg (image : Bitmap) (slide_size : ℕ × ℕ) :
    0 ≤ overflow_x image slide_size := le_max_right _ _

theorem overflow_y_nonneg (image : Bitmap) (slide_size : ℕ × ℕ) :
    0 ≤ overflow_y image slide_size := le_max_right _ _

theorem fill_left_eq_floor (image : Bitmap) (slide_size : ℕ × ℕ) {fx : ℚ}
    (hfx : 0 ≤ fx) :
    fill_left image slide_size fx = ⌊(overflow_x image slide_size : ℚ) * fx⌋ := by
  rw [fill_left, pyInt_of_nonneg]
  exact mul_nonneg (by exact_mod_cast overflow_x_nonneg image slide_size) hfx

theorem fill_top_eq_floor (image : Bitmap) (slide_size : ℕ × ℕ) {fy : ℚ}
    (hfy : 0 ≤ fy) :
    fill_top image slide_size fy = ⌊(overflow_y image slide_size : ℚ) * fy⌋ := by
  rw [fill_top, pyInt_of_nonneg]
  exact mul_nonneg (by exact_mod_cast overflow_y_nonneg image slide_size) hfy

theorem fill_left_nonneg (image : Bitmap) (slide_size : ℕ × ℕ) {fx : ℚ}
    (hfx : 0 ≤ fx) : 0 ≤ fill_left image slide_size fx :=
  pyInt_nonneg
    (mul_nonneg (by exact_mod_cast overflow_x_nonneg image slide_size) hfx)

theorem fill_top_nonneg (image : Bitmap) (slide_size : ℕ × ℕ) {fy : ℚ}
    (hfy : 0 ≤ fy) : 0 ≤ fill_top image slide_size fy :=
  pyInt_nonneg
    (mul_nonneg (by exact_mod_cast overflow_y_nonneg image slide_size) hfy)

theorem fill_left_le_overflow (image : Bitmap) (slide_size : ℕ × ℕ) {fx : ℚ}
    (hfx0 : 0 ≤ fx) (hfx1 : fx ≤ 1) :
    fill_left image slide_size fx ≤ overflow_x image slide_size := by
  rw [fill_left_eq_floor image slide_size hfx0]
  calc ⌊(overflow_x image slide_size : ℚ) * fx⌋
      ≤ ⌊(overflow_x image slide_size : ℚ)⌋ :=
        Int.floor_le_floor (mul_le_of_le_one_right
          (by exact_mod_cast overflow_x_nonneg image slide_size) hfx1)
    _ = overflow_x image slide_size := Int.floor_intCast _

theorem fill_top_le_overflow (image : Bitmap) (slide_size : ℕ × ℕ) {fy : ℚ}
    (hfy0 : 0 ≤ fy) (hfy1 : fy ≤ 1) :
    fill_top image slide_size fy ≤ overflow_y image slide_size := by
  rw [fill_top_eq_floor image slide_size hfy0]
  calc ⌊(overflow_y image slide_size : ℚ) * fy⌋
      ≤ ⌊(overflow_y image slide_size : ℚ)⌋ :=
        Int.floor_le_floor (mul_le_of_le_one_right
          (by exact_mod_cast overflow_y_nonneg image slide_size) hfy1)
    _ = overflow_y image slide_size := Int.floor_intCast _

theorem fill_left_mono (image : Bitmap) (slide_size : ℕ × ℕ) {fx fx' : ℚ}
    (hfx : 0 ≤ fx) (hle : fx ≤ fx') :
    fill_left image slide_size fx ≤ fill_left image slide_size fx' := by
  rw [fill_left_eq_floor image slide_size hfx,
    fill_left_eq_floor image slide_size (hfx.trans hle)]
  exact Int.floor_le_floor (mul_le_mul_of_nonneg_left hle
    (by exact_mod_cast overflow_x_nonneg image slide_size))

theorem fill_top_mono (image : Bitmap) (slide_size : ℕ × ℕ) {fy fy' : ℚ}
    (hfy : 0 ≤ fy) (hle : fy ≤ fy') :
    fill_top image slide_size fy ≤ fill_top image slide_size fy' := by
  rw [fill_top_eq_floor image slide_size hfy,
    fill_top_eq_floor image slide_size (hfy.trans hle)]
  exact Int.floor_le_floor (mul_le_mul_of_nonneg_left hle
    (by exact_mod_cast overflow_y_nonneg image slide_size))

theorem fill_left_zero (image : Bitmap) (slide_size : ℕ × ℕ) :
    fill_left image slide_size 0 = 0 := by
  simp [fill_left, pyInt]

theorem fill_top_zero (image : Bitmap) (slide_size : ℕ × ℕ) :
    fill_top image slide_size 0 = 0 := by
  simp [fill_top, pyInt]

theorem fill_left_one (image : Bitmap) (slide_size : ℕ × ℕ) :
    fill_left image slide_size 1 = overflow_x image slide_size := by
  rw [fill_left, mul_one,
    pyInt_of_nonneg (by exact_mod_cast overflow_x_nonneg image slide_size),
    Int.floor_intCast]

theorem fill_top_one (image : Bitmap) (slide_size : ℕ × ℕ) :
    fill_top image slide_size 1 = overflow_y image slide_size := by
  rw [fill_top, mul_one,
    pyInt_of_nonneg (by exact_mod_cast overflow_y_nonneg image slide_size),
    Int.floor_intCast]

/-- With a target the scaled bitmap covers, the overflow is an exact difference. -/
theorem overflow_x_eq (image : Bitmap) (slide_size : ℕ × ℕ)
    (h : slide_size.1 ≤ (new_size_of image slide_size "fill").1) :
    overflow_x image slide_size =
      ((new_size_of image slide_size "fill").1 : ℤ) - slide_size.1 := by
  rw [overflow_x, max_eq_left]
  omega

theorem overflow_y_eq (image : Bitmap) (slide_size : ℕ × ℕ)
    (h : slide_size.2 ≤ (new_size_of image slide_size "fill").2) :
    overflow_y image slide_size =
      ((new_size_of image slide_size "fill").2 : ℤ) - slide_size.2 := by
  rw [overflow_y, max_eq_left]
  omega

/-! ### Concrete evaluations -/

theorem testImage_new_size (mode : String) :
    new_size_of testImage (4, 2) mode = (4, 2) := by
  have hs : scale_of testImage (4, 2) mode = 2 := by
    rw [scale_of]
    split <;> norm_num [testImage]
  rw [new_size_of, hs]
  norm_num [pyInt, testImage]
  omega

theorem degenImage_new_size :
    new_size_of degenImage (100, 100) "fit" = (0, 100) := by
  have hs : scale_of degenImage (100, 100) "fit" = 1/10 := by
    rw [scale_of, if_neg (by decide : ("fit" : String) ≠ "fill")]
    norm_num [degenImage, min_def]
  rw [new_size_of, hs]
  norm_num [pyInt, degenImage]
  omega

theorem scenario_new_size (src : Bitmap) (hw : src.width = 4000) (hh : src.height = 2000) :
    new_size_of src (3840, 2160) "fit" = (3840, 1920) := by
  have hs : scale_of src (3840, 2160) "fit" = 24/25 := by
    rw [scale_of, if_neg (by decide : ("fit" : String) ≠ "fill"), hw, hh]
    norm_num [min_def]
  rw [new_size_of, hs, hw, hh]
  norm_num [pyInt]
  omega

theorem scenario_offset :
    fit_offset (3840, 2160) (3840, 1920) = (0, 120) := by
  decide

/-! ### The claims -/

/-- C1: for every source bitmap with positive width and height and every
target size with positive components (and non-zero truncated scaled
dimensions so the resample is well-defined), `compose_slide` returns a
bitmap whose width is exactly `target_w` and whose height is exactly
`target_h`, in both fit and fill modes. -/
theorem compose_slide_dimension_invariant
    (rp : Bitmap → ℕ × ℕ → ℕ → ℕ → Color) (image : Bitmap) (slide_size : ℕ × ℕ)
    (mode : String) (fx fy : ℚ) (bg : Color)
    (hmode : mode = "fit" ∨ mode = "fill")
    (hw : 0 < image.width) (hh : 0 < image.height)
    (htw : 0 < slide_size.1) (hth : 0 < slide_size.2)
    (h1 : (new_size_of image slide_size mode).1 ≠ 0)
    (h2 : (new_size_of image slide_size mode).2 ≠ 0) :
    ∃ out, compose_slide rp image slide_size mode fx fy bg = some out ∧
      out.width = slide_size.1 ∧ out.height = slide_size.2 := by
  by_cases hm : mode = "fill"
  · subst hm
    exact ⟨_, compose_eq_fill rp image slide_size fx fy bg h1 h2,
      crop_width _ _ _ _ _, crop_height _ _ _ _ _⟩
  · exact ⟨_, compose_eq_fit rp image slide_size mode fx fy bg hm h1 h2, rfl, rfl⟩

/-- Witness for C1 at a concrete input (2×1 source, 4×2 target, fill mode). -/
theorem compose_slide_dimension_invariant_witness :
    ∃ out, compose_slide constPix testImage (4, 2) "fill" (1/2) (1/2) (255, 255, 255)
        = some out ∧ out.width = 4 ∧ out.height = 2 :=
  compose_slide_dimension_invariant constPix testImage (4, 2) "fill" (1/2) (1/2)
    (255, 255, 255) (Or.inr rfl) (by decide) (by decide) (by decide) (by decide)
    (by rw [testImage_new_size]; decide) (by rw [testImage_new_size]; decide)

/-- C2: the scale is the max of the two target/source ratios in fill mode and
the min in fit mode, and the resampled dimensions are exactly the floors
(truncation toward zero of the non-negative products) of
`image.width * scale` and `image.height * scale`. -/
theorem compose_slide_scale_formula (image : Bitmap) (slide_size : ℕ × ℕ)
    (hw : 0 < image.width) (hh : 0 < image.height)
    (htw : 0 < slide_size.1) (hth : 0 < slide_size.2) :
    scale_of image slide_size "fill"
        = max ((slide_size.1 : ℚ) / image.width) ((slide_size.2 : ℚ) / image.height) ∧
    scale_of image slide_size "fit"
        = min ((slide_size.1 : ℚ) / image.width) ((slide_size.2 : ℚ) / image.height) ∧
    ∀ mode : String,
      ((new_size_of image slide_size mode).1 : ℤ)
          = ⌊(image.width : ℚ) * scale_of image slide_size mode⌋ ∧
      ((new_size_of image slide_size mode).2 : ℤ)
          = ⌊(image.height : ℚ) * scale_of image slide_size mode⌋ :=
  ⟨scale_of_fill image slide_size,
   scale_of_ne_fill image slide_size (by decide),
   fun mode => ⟨new_size_coe_fst image slide_size mode,
     new_size_coe_snd image slide_size mode⟩⟩

/-- Witness for C2 at a concrete input (2×1 source, 4×2 target). -/
theorem compose_slide_scale_formula_witness :
    scale_of testImage (4, 2) "fill"
        = max ((4 : ℚ) / testImage.width) ((2 : ℚ) / testImage.height) ∧
    scale_of testImage (4, 2) "fit"
        = min ((4 : ℚ) / testImage.width) ((2 : ℚ) / testImage.height) ∧
    ∀ mode : String,
      ((new_size_of testImage (4, 2) mode).1 : ℤ)
          = ⌊(testImage.width : ℚ) * scale_of testImage (4, 2) mode⌋ ∧
      ((new_size_of testImage (4, 2) mode).2 : ℤ)
          = ⌊(testImage.height : ℚ) * scale_of testImage (4, 2) mode⌋ :=
  compose_slide_scale_formula testImage (4, 2)
    (by decide) (by decide) (by decide) (by decide)

/-- C3: in fill mode, the pre-crop scaled dimensions dominate the target on
both axes, and the crop rectangle (with the clamped-focus offsets) lies
entirely inside the resized bitmap, so the out-of-bounds branch of the crop
is unreachable. -/
theorem compose_slide_fill_crop_in_bounds (image : Bitmap) (slide_size : ℕ × ℕ)
    (fx fy : ℚ) (hw : 0 < image.width) (hh : 0 < image.height)
    (htw : 0 < slide_size.1) (hth : 0 < slide_size.2) :
    slide_size.1 ≤ (new_size_of image slide_size "fill").1 ∧
    slide_size.2 ≤ (new_size_of image slide_size "fill").2 ∧
    0 ≤ fill_left image slide_size (clamp01 fx) ∧
    fill_left image slide_size (clamp01 fx) + slide_size.1
        ≤ ((new_size_of image slide_size "fill").1 : ℤ) ∧
    0 ≤ fill_top image slide_size (clamp01 fy) ∧
    fill_top image slide_size (clamp01 fy) + slide_size.2
        ≤ ((new_size_of image slide_size "fill").2 : ℤ) := by
  have hW := fill_width_ge image slide_size hw
  have hH := fill_height_ge image slide_size hh
  have hL := fill_left_le_overflow image slide_size (clamp01_nonneg fx) (clamp01_le_one fx)
  have hT := fill_top_le_overflow image slide_size (clamp01_nonneg fy) (clamp01_le_one fy)
  have hox := overflow_x_eq image slide_size hW
  have hoy := overflow_y_eq image slide_size hH
  refine ⟨hW, hH, fill_left_nonneg image slide_size (clamp01_nonneg fx), by omega,
    fill_top_nonneg image slide_size (clamp01_nonneg fy), by omega⟩

/-- Witness for C3 at a concrete input (2×1 source, 4×2 target, focus (1/2, 1/2)). -/
theorem compose_slide_fill_crop_in_bounds_witness :
    4 ≤ (new_size_of testImage (4, 2) "fill").1 ∧
    2 ≤ (new_size_of testImage (4, 2) "fill").2 ∧
    0 ≤ fill_left testImage (4, 2) (clamp01 (1/2)) ∧
    fill_left testImage (4, 2) (clamp01 (1/2)) + 4
        ≤ ((new_size_of testImage (4, 2) "fill").1 : ℤ) ∧
    0 ≤ fill_top testImage (4, 2) (clamp01 (1/2)) ∧
    fill_top testImage (4, 2) (clamp01 (1/2)) + 2
        ≤ ((new_size_of testImage (4, 2) "fill").2 : ℤ) :=
  compose_slide_fill_crop_in_bounds testImage (4, 2) (1/2) (1/2)
    (by decide) (by decide) (by decide) (by decide)

/-- C7: `compose_slide` behaves exactly as if each focus component were first
clamped into `[0, 1]`; in particular focus `(-5, 99)` produces the same
output as focus `(0, 1)`, and out-of-range focus values never change the
error behavior. -/
theorem compose_slide_focus_clamp
    (rp : Bitmap → ℕ × ℕ → ℕ → ℕ → Color) (image : Bitmap) (slide_size : ℕ × ℕ)
    (mode : String) (bg : Color) :
    (∀ fx fy : ℚ, compose_slide rp image slide_size mode fx fy bg
        = compose_slide rp image slide_size mode (clamp01 fx) (clamp01 fy) bg) ∧
    compose_slide rp image slide_size mode (-5) 99 bg
        = compose_slide rp image slide_size mode 0 1 bg := by
  have key : ∀ fx fy : ℚ, compose_slide rp image slide_size mode fx fy bg
      = compose_slide rp image slide_size mode (clamp01 fx) (clamp01 fy) bg := by
    intro fx fy
    simp only [compose_slide, clamp01_idem]
  have h1 : clamp01 (-5 : ℚ) = 0 := by rw [clamp01]; norm_num
  have h2 : clamp01 (99 : ℚ) = 1 := by rw [clamp01]; norm_num [max_def, min_def]
  have h3 : clamp01 (0 : ℚ) = 0 := clamp01_of_mem le_rfl zero_le_one
  have h4 : clamp01 (1 : ℚ) = 1 := clamp01_of_mem zero_le_one le_rfl
  exact ⟨key, by rw [key (-5) 99, key 0 1, h1, h2, h3, h4]⟩

/-- C8: in fill mode the crop's left offset is non-decreasing in the focus,
equal to 0 at focus 0 and to the full overflow at focus 1 (and symmetrically
for the top offset). -/
theorem compose_slide_fill_focus_monotone (image : Bitmap) (slide_size : ℕ × ℕ) :
    (∀ fx fx' : ℚ, 0 ≤ fx → fx ≤ fx' →
        fill_left image slide_size fx ≤ fill_left image slide_size fx' ∧
        fill_top image slide_size fx ≤ fill_top image slide_size fx') ∧
    fill_left image slide_size 0 = 0 ∧
    fill_left image slide_size 1 = overflow_x image slide_size ∧
    fill_top image slide_size 0 = 0 ∧
    fill_top image slide_size 1 = overflow_y image slide_size :=
  ⟨fun _ _ h0 hle => ⟨fill_left_mono image slide_size h0 hle,
     fill_top_mono image slide_size h0 hle⟩,
   fill_left_zero image slide_size, fill_left_one image slide_size,
   fill_top_zero image slide_size, fill_top_one image slide_size⟩

/-- Witness for C8 at a concrete input, instantiating the monotonicity at
focus values 0 ≤ 1/2. -/
theorem compose_slide_fill_focus_monotone_witness :
    (fill_left testImage (4, 2) 0 ≤ fill_left testImage (4, 2) (1/2) ∧
     fill_top testImage (4, 2) 0 ≤ fill_top testImage (4, 2) (1/2)) ∧
    fill_left testImage (4, 2) 0 = 0 ∧
    fill_left testImage (4, 2) 1 = overflow_x testImage (4, 2) :=
  ⟨(compose_slide_fill_focus_monotone testImage (4, 2)).1 0 (1/2)
      le_rfl (by norm_num),
   (compose_slide_fill_focus_monotone testImage (4, 2)).2.1,
   (compose_slide_fill_focus_monotone testImage (4, 2)).2.2.1⟩

/-- C9: when a computed scaled dimension truncates to zero along either axis,
`compose_slide` fails fast (the resize raises, modelled as `none`) and
produces no output bitmap. -/
theorem compose_slide_degenerate_scale
    (rp : Bitmap → ℕ × ℕ → ℕ → ℕ → Color) (image : Bitmap) (slide_size : ℕ × ℕ)
    (mode : String) (fx fy : ℚ) (bg : Color)
    (h : (new_size_of image slide_size mode).1 = 0 ∨
         (new_size_of image slide_size mode).2 = 0) :
    compose_slide rp image slide_size mode fx fy bg = none := by
  rw [compose_slide, Bitmap.resize, if_pos h]
  rfl

/-- Witness for C9: a 1×1000 source into a 100×100 target in fit mode scales
the width down to `int(1 * 0.1) = 0`, and `compose_slide` produces no bitmap. -/
theorem compose_slide_degenerate_scale_witness :
    compose_slide constPix degenImage (100, 100) "fit" (1/2) (1/2) (255, 255, 255)
      = none :=
  compose_slide_degenerate_scale constPix degenImage (100, 100) "fit" (1/2) (1/2)
    (255, 255, 255) (Or.inl (by rw [degenImage_new_size]))

/-- C10: the mode dispatch tests only the exact string `"fill"`; every other
mode string (such as `"Fill"`, `"cover"` or the empty string) silently runs
the fit/letterbox algorithm and is never rejected. -/
theorem compose_slide_mode_dispatch
    (rp : Bitmap → ℕ × ℕ → ℕ → ℕ → Color) (image : Bitmap) (slide_size : ℕ × ℕ)
    (mode : String) (fx fy : ℚ) (bg : Color) (hmode : mode ≠ "fill") :
    compose_slide rp image slide_size mode fx fy bg
      = compose_slide rp image slide_size "fit" fx fy bg := by
  have hn := new_size_of_ne_fill image slide_size hmode
  rw [compose_slide, compose_slide, hn]
  simp only [if_neg hmode, if_neg (by decide : ¬("fit" : String) = "fill")]

/-- Witness for C10: the unknown mode `"cover"` behaves as fit mode. -/
theorem compose_slide_mode_dispatch_witness :
    compose_slide constPix testImage (4, 2) "cover" (1/2) (1/2) (255, 255, 255)
      = compose_slide constPix testImage (4, 2) "fit" (1/2) (1/2) (255, 255, 255) :=
  compose_slide_mode_dispatch constPix testImage (4, 2) "cover" (1/2) (1/2)
    (255, 255, 255) (by decide)

/-- C4: in fill mode with in-range focus, the crop offsets are
`left = floor(overflowX * focusX)` and `top = floor(overflowY * focusY)` with
`overflowX = max(scaledWidth - target_w, 0)` (and symmetrically), and every
output pixel is exactly the corresponding pixel of the sub-rectangle
`[left, left + target_w) × [top, top + target_h)` of the resampled bitmap —
no padding pixel is ever produced. -/
theorem compose_slide_fill_crop_subrectangle
    (rp : Bitmap → ℕ × ℕ → ℕ → ℕ → Color) (image : Bitmap) (slide_size : ℕ × ℕ)
    (fx fy : ℚ) (bg : Color)
    (hw : 0 < image.width) (hh : 0 < image.height)
    (htw : 0 < slide_size.1) (hth : 0 < slide_size.2)
    (hfx0 : 0 ≤ fx) (hfx1 : fx ≤ 1) (hfy0 : 0 ≤ fy) (hfy1 : fy ≤ 1) :
    ∃ out, compose_slide rp image slide_size "fill" fx fy bg = some out ∧
      overflow_x image slide_size
          = max (((new_size_of image slide_size "fill").1 : ℤ) - slide_size.1) 0 ∧
      overflow_y image slide_size
          = max (((new_size_of image slide_size "fill").2 : ℤ) - slide_size.2) 0 ∧
      fill_left image slide_size fx = ⌊(overflow_x image slide_size : ℚ) * fx⌋ ∧
      fill_top image slide_size fy = ⌊(overflow_y image slide_size : ℚ) * fy⌋ ∧
      out.width = slide_size.1 ∧ out.height = slide_size.2 ∧
      ∀ x y, x < slide_size.1 → y < slide_size.2 →
        out.pix x y = rp image (new_size_of image slide_size "fill")
          ((fill_left image slide_size fx).toNat + x)
          ((fill_top image slide_size fy).toNat + y) := by
  have hW := fill_width_ge image slide_size hw
  have hH := fill_height_ge image slide_size hh
  have h1 : (new_size_of image slide_size "fill").1 ≠ 0 := by omega
  have h2 : (new_size_of image slide_size "fill").2 ≠ 0 := by omega
  have hcx : clamp01 fx = fx := clamp01_of_mem hfx0 hfx1
  have hcy : clamp01 fy = fy := clamp01_of_mem hfy0 hfy1
  have hc := compose_eq_fill rp image slide_size fx fy bg h1 h2
  rw [hcx, hcy] at hc
  have hL0 := fill_left_nonneg image slide_size hfx0
  have hT0 := fill_top_nonneg image slide_size hfy0
  have hLo := fill_left_le_overflow image slide_size hfx0 hfx1
  have hTo := fill_top_le_overflow image slide_size hfy0 hfy1
  have hox := overflow_x_eq image slide_size hW
  have hoy := overflow_y_eq image slide_size hH
  refine ⟨_, hc, rfl, rfl, fill_left_eq_floor image slide_size hfx0,
    fill_top_eq_floor image slide_size hfy0, crop_width _ _ _ _ _, crop_height _ _ _ _ _, ?_⟩
  intro x y hx hy
  show (if 0 ≤ fill_left image slide_size fx + (x : ℤ) ∧
          fill_left image slide_size fx + (x : ℤ)
            < ((new_size_of image slide_size "fill").1 : ℤ) ∧
          0 ≤ fill_top image slide_size fy + (y : ℤ) ∧
          fill_top image slide_size fy + (y : ℤ)
            < ((new_size_of image slide_size "fill").2 : ℤ) then
        rp image (new_size_of image slide_size "fill")
          (fill_left image slide_size fx + (x : ℤ)).toNat
          (fill_top image slide_size fy + (y : ℤ)).toNat
      else (0, 0, 0)) = _
  rw [if_pos (by constructor <;> [omega; constructor] <;> [omega; constructor] <;> omega)]
  have e1 : (fill_left image slide_size fx + (x : ℤ)).toNat
      = (fill_left image slide_size fx).toNat + x := by omega
  have e2 : (fill_top image slide_size fy + (y : ℤ)).toNat
      = (fill_top image slide_size fy).toNat + y := by omega
  rw [e1, e2]

/-- Witness for C4 at a concrete input (2×1 source, 4×2 target, focus (1/2, 1/2)). -/
theorem compose_slide_fill_crop_subrectangle_witness :
    ∃ out, compose_slide constPix testImage (4, 2) "fill" (1/2) (1/2) (255, 255, 255)
        = some out ∧
      overflow_x testImage (4, 2)
          = max (((new_size_of testImage (4, 2) "fill").1 : ℤ) - 4) 0 ∧
      overflow_y testImage (4, 2)
          = max (((new_size_of testImage (4, 2) "fill").2 : ℤ) - 2) 0 ∧
      fill_left testImage (4, 2) (1/2) = ⌊(overflow_x testImage (4, 2) : ℚ) * (1/2)⌋ ∧
      fill_top testImage (4, 2) (1/2) = ⌊(overflow_y testImage (4, 2) : ℚ) * (1/2)⌋ ∧
      out.width = 4 ∧ out.height = 2 ∧
      ∀ x y, x < 4 → y < 2 →
        out.pix x y = constPix testImage (new_size_of testImage (4, 2) "fill")
          ((fill_left testImage (4, 2) (1/2)).toNat + x)
          ((fill_top testImage (4, 2) (1/2)).toNat + y) :=
  compose_slide_fill_crop_subrectangle constPix testImage (4, 2) (1/2) (1/2)
    (255, 255, 255) (by decide) (by decide) (by decide) (by decide)
    (by norm_num) (by norm_num) (by norm_num) (by norm_num)

/-- C5: in fit mode the output is the target-sized background canvas with the
resampled bitmap pasted at the centering offset
`(floor((target_w - scaledW) / 2), floor((target_h - scaledH) / 2))`; the
offsets are never negative, the pasted content fits inside the target on both
axes, and at least one axis matches the target exactly. -/
theorem compose_slide_fit_letterbox
    (rp : Bitmap → ℕ × ℕ → ℕ → ℕ → Color) (image : Bitmap) (slide_size : ℕ × ℕ)
    (fx fy : ℚ) (bg : Color)
    (hw : 0 < image.width) (hh : 0 < image.height)
    (htw : 0 < slide_size.1) (hth : 0 < slide_size.2)
    (h1 : (new_size_of image slide_size "fit").1 ≠ 0)
    (h2 : (new_size_of image slide_size "fit").2 ≠ 0) :
    ∃ out, compose_slide rp image slide_size "fit" fx fy bg = some out ∧
      out = Bitmap.paste (imageNew slide_size bg)
        ⟨(new_size_of image slide_size "fit").1,
         (new_size_of image slide_size "fit").2,
         rp image (new_size_of image slide_size "fit")⟩
        (fit_offset slide_size (new_size_of image slide_size "fit")) ∧
      (fit_offset slide_size (new_size_of image slide_size "fit")).1
          = ⌊((slide_size.1 : ℚ) - (new_size_of image slide_size "fit").1) / 2⌋ ∧
      (fit_offset slide_size (new_size_of image slide_size "fit")).2
          = ⌊((slide_size.2 : ℚ) - (new_size_of image slide_size "fit").2) / 2⌋ ∧
      0 ≤ (fit_offset slide_size (new_size_of image slide_size "fit")).1 ∧
      0 ≤ (fit_offset slide_size (new_size_of image slide_size "fit")).2 ∧
      (new_size_of image slide_size "fit").1 ≤ slide_size.1 ∧
      (new_size_of image slide_size "fit").2 ≤ slide_size.2 ∧
      ((new_size_of image slide_size "fit").1 = slide_size.1 ∨
       (new_size_of image slide_size "fit").2 = slide_size.2) := by
  have hfit : ("fit" : String) ≠ "fill" := by decide
  have hWle := fit_width_le image slide_size hfit hw
  have hHle := fit_height_le image slide_size hfit hh
  have hfd : ∀ a b : ℕ, Int.fdiv ((a : ℤ) - b) 2 = ⌊((a : ℚ) - b) / 2⌋ := by
    intro a b
    have hcast : ((a : ℚ) - b) / 2 = (((a : ℤ) - b : ℤ) : ℚ) / ((2 : ℕ) : ℚ) := by
      push_cast
      ring
    rw [hcast, Rat.floor_intCast_div_natCast,
      Int.fdiv_eq_ediv _ (by norm_num : (0 : ℤ) ≤ 2)]
    rfl
  refine ⟨_, compose_eq_fit rp image slide_size "fit" fx fy bg hfit h1 h2, rfl,
    hfd slide_size.1 _, hfd slide_size.2 _,
    Int.fdiv_nonneg (by omega) (by norm_num),
    Int.fdiv_nonneg (by omega) (by norm_num),
    hWle, hHle, fit_axis_eq image slide_size hfit hw hh⟩

/-- Witness for C5 at a concrete input (2×1 source, 4×2 target). -/
theorem compose_slide_fit_letterbox_witness :
    ∃ out, compose_slide constPix testImage (4, 2) "fit" (1/2) (1/2) (5, 5, 8)
        = some out ∧
      out = Bitmap.paste (imageNew (4, 2) (5, 5, 8))
        ⟨(new_size_of testImage (4, 2) "fit").1,
         (new_size_of testImage (4, 2) "fit").2,
         constPix testImage (new_size_of testImage (4, 2) "fit")⟩
        (fit_offset (4, 2) (new_size_of testImage (4, 2) "fit")) ∧
      (fit_offset (4, 2) (new_size_of testImage (4, 2) "fit")).1
          = ⌊((4 : ℚ) - (new_size_of testImage (4, 2) "fit").1) / 2⌋ ∧
      (fit_offset (4, 2) (new_size_of testImage (4, 2) "fit")).2
          = ⌊((2 : ℚ) - (new_size_of testImage (4, 2) "fit").2) / 2⌋ ∧
      0 ≤ (fit_offset (4, 2) (new_size_of testImage (4, 2) "fit")).1 ∧
      0 ≤ (fit_offset (4, 2) (new_size_of testImage (4, 2) "fit")).2 ∧
      (new_size_of testImage (4, 2) "fit").1 ≤ 4 ∧
      (new_size_of testImage (4, 2) "fit").2 ≤ 2 ∧
      ((new_size_of testImage (4, 2) "fit").1 = 4 ∨
       (new_size_of testImage (4, 2) "fit").2 = 2) :=
  compose_slide_fit_letterbox constPix testImage (4, 2) (1/2) (1/2) (5, 5, 8)
    (by decide) (by decide) (by decide) (by decide)
    (by rw [testImage_new_size]; decide) (by rw [testImage_new_size]; decide)

/-- C6 (counterexample): for source 4000×2000, target 3840×2160, mode fit,
background (5,5,8), the claimed vertical padding of 60 px top/bottom is wrong:
the paste offset is `(0, 120)`, and rows 60 and 119 of the output are still
background (5,5,8) rather than resampled content, which only starts at
row 120. -/
theorem compose_slide_fit_scenario_counterexample :
    (compose_slide constPix srcScenario (3840, 2160) "fit" (1/2) (1/2) (5, 5, 8)).map
        (fun b => (b.width, b.height, b.pix 0 60, b.pix 0 119, b.pix 0 120))
      = some (3840, 2160, (5, 5, 8), (5, 5, 8), (9, 9, 9)) ∧
    fit_offset (3840, 2160) (new_size_of srcScenario (3840, 2160) "fit") = (0, 120) ∧
    ((5, 5, 8) : Color) ≠ (9, 9, 9) := by
  have hn := scenario_new_size srcScenario rfl rfl
  have h1 : (new_size_of srcScenario (3840, 2160) "fit").1 ≠ 0 := by rw [hn]; decide
  have h2 : (new_size_of srcScenario (3840, 2160) "fit").2 ≠ 0 := by rw [hn]; decide
  have hc := compose_eq_fit constPix srcScenario (3840, 2160) "fit" (1/2) (1/2)
    (5, 5, 8) (by decide) h1 h2
  rw [hn] at hc
  refine ⟨?_, by rw [hn]; exact scenario_offset, by decide⟩
  rw [hc]
  simp only [Option.map_some']
  rfl

/-- C6 (amended): for source 4000×2000, target 3840×2160, mode fit,
background (5,5,8): scale = min(0.96, 1.08) = 0.96, the scaled bitmap is
3840×1920, and the output is 3840×2160 with vertical padding of 240 px total
(120 px top and 120 px bottom) filled with (5,5,8); the full width is
resampled content on rows 120..2039, so there is no horizontal padding. -/
theorem compose_slide_fit_scenario_amended
    (rp : Bitmap → ℕ × ℕ → ℕ → ℕ → Color) (src : Bitmap)
    (hw : src.width = 4000) (hh : src.height = 2000) :
    ∃ out, compose_slide rp src (3840, 2160) "fit" (1/2) (1/2) (5, 5, 8)
        = some out ∧
      scale_of src (3840, 2160) "fit" = 24/25 ∧
      new_size_of src (3840, 2160) "fit" = (3840, 1920) ∧
      out.width = 3840 ∧ out.height = 2160 ∧
      ∀ x y, x < 3840 → y < 2160 →
        out.pix x y = if 120 ≤ y ∧ y < 2040
          then rp src (3840, 1920) x (y - 120)
          else (5, 5, 8) := by
  have hs : scale_of src (3840, 2160) "fit" = 24/25 := by
    rw [scale_of, if_neg (by decide : ("fit" : String) ≠ "fill"), hw, hh]
    norm_num [min_def]
  have hn := scenario_new_size src hw hh
  have h1 : (new_size_of src (3840, 2160) "fit").1 ≠ 0 := by rw [hn]; decide
  have h2 : (new_size_of src (3840, 2160) "fit").2 ≠ 0 := by rw [hn]; decide
  have hc := compose_eq_fit rp src (3840, 2160) "fit" (1/2) (1/2)
    (5, 5, 8) (by decide) h1 h2
  rw [hn] at hc
  refine ⟨_, hc, hs, hn, rfl, rfl, ?_⟩
  intro x y hx hy
  simp only [Bitmap.paste, imageNew, scenario_offset]
  split_ifs with hA hB
  · have e1 : ((x : ℤ) - (0, (120 : ℤ)).1).toNat = x := by omega
    have e2 : ((y : ℤ) - (0, (120 : ℤ)).2).toNat = y - 120 := by
      simp only []
      omega
    rw [e1, e2]
  · exact absurd ⟨by omega, by omega⟩ hB
  · exact absurd ⟨by omega, by omega, by omega, by omega⟩ hA
  · rfl

/-- Witness for the amended C6 at the concrete scenario bitmap. -/
theorem compose_slide_fit_scenario_amended_witness :
    ∃ out, compose_slide constPix srcScenario (3840, 2160) "fit" (1/2) (1/2) (5, 5, 8)
        = some out ∧
      scale_of srcScenario (3840, 2160) "fit" = 24/25 ∧
      new_size_of srcScenario (3840, 2160) "fit" = (3840, 1920) ∧
      out.width = 3840 ∧ out.height = 2160 ∧
      ∀ x y, x < 3840 → y < 2160 →
        out.pix x y = if 120 ≤ y ∧ y < 2040
          then constPix srcScenario (3840, 1920) x (y - 120)
          else (5, 5, 8) :=
  compose_slide_fit_scenario_amended constPix srcScenario rfl rfl
